import Mathlib

/-!
Verification of the airhauler-optimizer routing core against its
natural-language specification.

The development shallowly embeds the relevant parts of `src/airhauler.py`
and `src/common.py`:

* `common_get_distance` embeds `common.get_distance` (haversine over the
  reals, metres divided by 1850, Python `round`);
* `resolveIdent`, `lookupAirport` and `get_distance` embed
  `AirHauler.get_distance` (regional-prefix resolution and the 99999
  sentinel for unresolved identifiers);
* `addLocation`, `cdmStep`, `buildState`, `distanceMatrix` and
  `create_data_model` embed `AirHauler.create_data_model`;
* `demand_callback` embeds the demand callback of
  `AirHauler.calculate_jobs` (an `Option` result models a Python
  exception escaping the callback);
* `routeWalk`, `print_solution` and `calculate_jobs_report` embed
  `AirHauler.print_solution` and the tail of `AirHauler.calculate_jobs`
  (an `Except` result models a raised exception).

Python floats are modelled as real numbers.
-/

namespace AirHauler

/-- An airport record as produced by `common.load_airports`: an identifier
together with latitude and longitude in degrees. -/
structure Airport where
  ident : String
  latitude_deg : ℝ
  longitude_deg : ℝ

/-- A job record as produced by `common.load_jobs`.  The remaining columns
of the sheet (`dist`, `cargo`, `fee`, `expires`) are never consulted by the
routing core and are omitted. -/
structure Job where
  fromIcao : String
  toIcao : String
  quantity : ℤ

/-- An aircraft record as produced by `common.load_aircraft`
(columns `Location`, `MakeModel`, `CargoCapacity`, `Range`). -/
structure Aircraft where
  location : String
  makeModel : String
  cargoCapacity : ℤ
  range : ℤ

/-! ### Distance model (`common.get_distance`, `AirHauler.get_distance`) -/

/-- Python's `math.atan2 y x`: the angle of the point `(x, y)`,
in `(-pi, pi]`. -/
noncomputable def atan2 (y x : ℝ) : ℝ :=
  if 0 < x then Real.arctan (y / x)
  else if x < 0 then
    (if 0 ≤ y then Real.arctan (y / x) + Real.pi
     else Real.arctan (y / x) - Real.pi)
  else
    (if 0 < y then Real.pi / 2
     else if y < 0 then -(Real.pi / 2)
     else 0)

/-- Python's built-in `round`: round to the nearest integer, ties to the
nearest even integer. -/
noncomputable def pyRound (x : ℝ) : ℤ :=
  if Int.fract x = 1 / 2 then 2 * round (x / 2) else round x

/-- `common.get_distance lat1 lon1 lat2 lon2` (all in radians): the
haversine great-circle distance over an Earth radius of 6371000 metres,
divided by 1850 and rounded to the nearest integer. -/
noncomputable def common_get_distance (lat1 lon1 lat2 lon2 : ℝ) : ℤ :=
  let r : ℝ := 6371000
  let dlon := lon2 - lon1
  let dlat := lat2 - lat1
  let a := Real.sin (dlat / 2) ^ 2 +
    Real.cos lat1 * Real.cos lat2 * Real.sin (dlon / 2) ^ 2
  let c := 2 * atan2 (Real.sqrt a) (Real.sqrt (1 - a))
  pyRound (r * c / 1850)

/-- Python's `math.radians`: degrees to radians. -/
noncomputable def radians (x : ℝ) : ℝ := x * Real.pi / 180

/-- Whether some airport row has the given identifier
(`len(self.airports[self.airports.ident == icao]) > 0`). -/
def identMatches (airports : List Airport) (icao : String) : Bool :=
  airports.any (fun a => a.ident = icao)

/-- The prefix-resolution step of `AirHauler.get_distance`: a 3-character
identifier is replaced by its "K"-prefixed form when that matches an
airport, otherwise by its "C"-prefixed form when that matches; any other
identifier is kept as given. -/
def resolveIdent (airports : List Airport) (icao : String) : String :=
  if icao.length = 3 then
    if identMatches airports ("K" ++ icao) then "K" ++ icao
    else if identMatches airports ("C" ++ icao) then "C" ++ icao
    else icao
  else icao

/-- The first airport row with the given identifier
(`self.airports[self.airports.ident == icao].iloc[0]`). -/
def lookupAirport (airports : List Airport) (icao : String) : Option Airport :=
  airports.find? (fun a => a.ident = icao)

/-- `AirHauler.get_distance from_icao to_icao`: resolve both identifiers,
return the sentinel 99999 when either resolved identifier matches no
airport, and otherwise the haversine distance between the two airports'
coordinates converted to radians. -/
noncomputable def get_distance (airports : List Airport)
    (from_icao to_icao : String) : ℤ :=
  let f := resolveIdent airports from_icao
  let t := resolveIdent airports to_icao
  match lookupAirport airports f, lookupAirport airports t with
  | some a, some b =>
      common_get_distance (radians a.latitude_deg) (radians a.longitude_deg)
        (radians b.latitude_deg) (radians b.longitude_deg)
  | _, _ => 99999

/-! ### Problem builder (`AirHauler.create_data_model`) -/

/-- One `if icao not in self.locations: self.locations.append(icao)`
step of `create_data_model`. -/
def addLocation (locations : List String) (icao : String) : List String :=
  if icao ∈ locations then locations else locations ++ [icao]

/-- The location-list part of one loop iteration of `create_data_model`:
the job's destination is appended first, then its origin. -/
def locStep (locations : List String) (job : Job) : List String :=
  addLocation (addLocation locations job.toIcao) job.fromIcao

/-- The location list accumulated by the loop of `create_data_model`,
starting from the empty list. -/
def buildLocations (jobs : List Job) : List String :=
  jobs.foldl locStep []

/-- One full loop iteration of `create_data_model`: extend the location
list, and record a pickup-delivery pair (by current list indices) when
both job endpoints differ from the aircraft's home identifier. -/
def cdmStep (aircraft_icao : String)
    (st : List String × List (ℕ × ℕ)) (job : Job) :
    List String × List (ℕ × ℕ) :=
  let locations := locStep st.1 job
  let pairs :=
    if job.fromIcao ≠ aircraft_icao ∧ job.toIcao ≠ aircraft_icao then
      st.2 ++ [(List.indexOf job.fromIcao locations,
                List.indexOf job.toIcao locations)]
    else st.2
  (locations, pairs)

/-- The `(locations, pickups_deliveries)` state after the loop of
`create_data_model`. -/
def buildState (jobs : List Job) (aircraft_icao : String) :
    List String × List (ℕ × ℕ) :=
  jobs.foldl (cdmStep aircraft_icao) ([], [])

/-- The pickup-delivery pair list built by `create_data_model`. -/
def buildPairs (jobs : List Job) (aircraft_icao : String) : List (ℕ × ℕ) :=
  (buildState jobs aircraft_icao).2

/-- The distance matrix built by `create_data_model`: one row per
location, each entry a `get_distance` call. -/
noncomputable def distanceMatrix (airports : List Airport)
    (locations : List String) : List (List ℤ) :=
  locations.map (fun a => locations.map (fun b => get_distance airports a b))

/-- The `data` dictionary assembled by `create_data_model`.  The field
`demands` models the dictionary key `'demands'`, which
`create_data_model` never assigns; it is therefore always `none`. -/
structure DataModel where
  pickups_deliveries : List (ℕ × ℕ)
  distance_matrix : List (List ℤ)
  num_planes : ℕ
  base : ℕ
  demands : Option (List ℤ)

/-- `AirHauler.create_data_model`: build the location list and pair list,
the distance matrix, and the base index `self.locations.index(aircraft_icao)`
(a Python `ValueError`, modelled as `Except.error`, when the aircraft's
location never occurs among the job endpoints). -/
noncomputable def create_data_model (airports : List Airport)
    (jobs : List Job) (aircraft_icao : String) : Except String DataModel :=
  let st := buildState jobs aircraft_icao
  if aircraft_icao ∈ st.1 then
    Except.ok
      { pickups_deliveries := st.2
        distance_matrix := distanceMatrix airports st.1
        num_planes := 1
        base := List.indexOf aircraft_icao st.1
        demands := none }
  else Except.error "ValueError: aircraft location is not in list"

/-! ### Demand callback (`AirHauler.calculate_jobs`, lines 61-76) -/

/-- The demand callback registered by `calculate_jobs`, at the level of
node indices: 0 for a same-node arc, and otherwise
`jobs[(jobs.fromIcao == from) & (jobs.toIcao == to)]['quantity'].iloc[1]`
— the quantity of the SECOND matching job row.  `none` models a Python
exception escaping the callback (an out-of-range list index or an
out-of-range `.iloc`). -/
def demand_callback (jobs : List Job) (locations : List String)
    (from_node to_node : ℕ) : Option ℤ :=
  if from_node = to_node then some 0
  else do
    let from_icao ← locations.get? from_node
    let to_icao ← locations.get? to_node
    let df := jobs.filter (fun j => j.fromIcao = from_icao ∧ j.toIcao = to_icao)
    (df.get? 1).map (fun j => j.quantity)

/-! ### Solver configuration (`AirHauler.calculate_jobs`, lines 38-47 and 78-84) -/

/-- The vehicle maximum travel distance passed to `AddDimension` for the
`'Distance'` dimension: the literal `70000`, whatever the aircraft record
says. -/
def solveMaxTravelDistance (aircraft : Aircraft) : ℤ := 70000

/-- The vehicle capacity list passed to `AddDimensionWithVehicleCapacity`
for the `'Capacity'` dimension: the literal `[500]`, whatever the aircraft
record says. -/
def solveCapacities (aircraft : Aircraft) : List ℤ := [500]

/-- The global span cost coefficient set on the `'Distance'` dimension. -/
def globalSpanCoefficient : ℤ := 100

/-- The cumulative values of a dimension along a route: 0 at the first
stop, and each later stop adds the transit value of the arc leading to
it. -/
def routeCumuls (transit : ℕ → ℕ → ℤ) : List ℕ → List ℤ
  | [] => []
  | [_] => [0]
  | a :: b :: rest => 0 :: (routeCumuls transit (b :: rest)).map (fun c => transit a b + c)

/-- Modelled from the spec: the semantics of a solver dimension with zero
slack, capacity `cap` and `start cumul to zero` (the external engine's
`AddDimension` is not part of this repository's sources).  A route is
feasible for the dimension when every cumulative value lies within
`[0, cap]`. -/
def DimensionFeasible (transit : ℕ → ℕ → ℤ) (cap : ℤ) (route : List ℕ) : Prop :=
  ∀ c ∈ routeCumuls transit route, 0 ≤ c ∧ c ≤ cap

/-! ### Solution extraction (`AirHauler.print_solution`) and solve guard -/

/-- A Python list access `l[i]`, raising `IndexError` when out of range. -/
def lookupList {α : Type} (l : List α) (i : ℕ) : Except String α :=
  match l.get? i with
  | some v => Except.ok v
  | none => Except.error "IndexError"

/-- The body of the per-vehicle `while not routing.IsEnd(index)` loop of
`print_solution`, walking one route: every stop except the final one adds
`data['demands'][node]` to the running load (a `KeyError` when the
dictionary has no `'demands'` key) and the arc cost into the next stop to
the running distance.  Returns `(route_distance, route_load)`. -/
def routeWalk (data : DataModel) :
    List ℕ → ℤ → ℤ → Except String (ℤ × ℤ)
  | [], dist, load => Except.ok (dist, load)
  | [_], dist, load => Except.ok (dist, load)
  | n :: next :: rest, dist, load => do
    let demands ← match data.demands with
      | some ds => Except.ok ds
      | none => Except.error "KeyError: demands"
    let d ← lookupList demands n
    let row ← lookupList data.distance_matrix n
    let arc ← lookupList row next
    routeWalk data (next :: rest) (dist + arc) (load + d)

/-- `AirHauler.print_solution`, with the solver's assignment already read
back as one node route per vehicle: accumulate every vehicle's route
distance and route load into fleet totals. -/
def print_solution (data : DataModel) (routes : List (List ℕ)) :
    Except String (ℤ × ℤ) :=
  routes.foldlM
    (fun (tot : ℤ × ℤ) route => do
      let dl ← routeWalk data route 0 0
      pure (tot.1 + dl.1, tot.2 + dl.2))
    (0, 0)

/-- Lines 91-95 of `calculate_jobs`: `solution` is the solver's return
value (`none` models the null result returned when no feasible assignment
exists); `if solution:` prints, otherwise the method just falls through.
`Except.ok none` is the non-printing, non-raising fall-through. -/
def calculate_jobs_report (data : DataModel)
    (solution : Option (List (List ℕ))) : Except String (Option (ℤ × ℤ)) :=
  match solution with
  | some routes => (print_solution data routes).map some
  | none => Except.ok none

/-! ### Arithmetic facts about `pyRound` and `atan2` -/

theorem pyRound_zero : pyRound 0 = 0 := by
  unfold pyRound
  rw [if_neg, round_zero]
  rw [Int.fract_zero]
  norm_num

theorem pyRound_le_ceil (x : ℝ) : pyRound x ≤ ⌈x⌉ := by
  unfold pyRound
  split
  · rename_i h
    have hx : x = (⌊x⌋ : ℝ) + 1 / 2 := by
      conv_lhs => rw [← Int.floor_add_fract x]
      rw [h]
    obtain ⟨n, hn⟩ : ∃ n : ℤ, x = (n : ℝ) + 1 / 2 := ⟨⌊x⌋, hx⟩
    subst hn
    have hhalf : ⌈(1 : ℝ) / 2⌉ = 1 := by
      rw [Int.ceil_eq_iff]
      norm_num
    have hceil : ⌈(n : ℝ) + 1 / 2⌉ = n + 1 := by
      rw [add_comm, Int.ceil_add_int, hhalf, add_comm]
    rw [hceil, round_eq]
    have harg : ((n : ℝ) + 1 / 2) / 2 + 1 / 2 = (n : ℝ) / 2 + 3 / 4 := by
      ring
    rw [harg]
    have h2 := Int.floor_le ((n : ℝ) / 2 + 3 / 4)
    have h3 : ((2 * ⌊(n : ℝ) / 2 + 3 / 4⌋ : ℤ) : ℝ) < ((n + 2 : ℤ) : ℝ) := by
      push_cast
      linarith
    have h4 : 2 * ⌊(n : ℝ) / 2 + 3 / 4⌋ < n + 2 := by
      exact_mod_cast h3
    omega
  · rw [round_eq]
    have h1 : x + 1 / 2 ≤ (⌈x⌉ : ℝ) + 1 / 2 := by
      linarith [Int.le_ceil x]
    calc ⌊x + 1 / 2⌋ ≤ ⌊(⌈x⌉ : ℝ) + 1 / 2⌋ := Int.floor_mono h1
      _ = ⌈x⌉ := by
        rw [show ((⌈x⌉ : ℝ) + 1 / 2) = 1 / 2 + (⌈x⌉ : ℝ) by ring,
          Int.floor_add_int]
        norm_num

theorem pyRound_eq (x : ℝ) (n : ℤ) (hlo : (n : ℝ) - 1 / 2 < x)
    (hhi : x < (n : ℝ) + 1 / 2) : pyRound x = n := by
  have hfr : Int.fract x ≠ 1 / 2 := by
    intro h
    have hx : x = (⌊x⌋ : ℝ) + 1 / 2 := by
      conv_lhs => rw [← Int.floor_add_fract x]
      rw [h]
    rw [hx] at hlo hhi
    have h1 : ((n - 1 : ℤ) : ℝ) < (⌊x⌋ : ℝ) := by push_cast; linarith
    have h2 : (⌊x⌋ : ℝ) < (n : ℝ) := by linarith
    have h1' : n - 1 < ⌊x⌋ := by exact_mod_cast h1
    have h2' : ⌊x⌋ < n := by exact_mod_cast h2
    omega
  unfold pyRound
  rw [if_neg hfr, round_eq]
  exact Int.floor_eq_iff.2 ⟨by linarith, by linarith⟩

theorem atan2_nonneg_le_pi_div_two (y x : ℝ) (hy : 0 ≤ y) (hx : 0 ≤ x) :
    0 ≤ atan2 y x ∧ atan2 y x ≤ Real.pi / 2 := by
  unfold atan2
  rcases lt_or_eq_of_le hx with hx' | hx'
  · rw [if_pos hx']
    constructor
    · have h := Real.arctan_strictMono.monotone
        (div_nonneg hy hx : (0 : ℝ) ≤ y / x)
      rwa [Real.arctan_zero] at h
    · exact le_of_lt (Real.arctan_lt_pi_div_two _)
  · rw [if_neg (by rw [← hx']; exact lt_irrefl 0),
      if_neg (by rw [← hx']; exact lt_irrefl 0)]
    rcases lt_or_eq_of_le hy with hy' | hy'
    · rw [if_pos hy']
      exact ⟨by positivity, le_refl _⟩
    · rw [if_neg (by rw [← hy']; exact lt_irrefl 0),
        if_neg (by rw [← hy']; exact lt_irrefl 0)]
      exact ⟨le_refl 0, by positivity⟩

/-! ### Distance-model lemmas -/

theorem common_get_distance_le (lat1 lon1 lat2 lon2 : ℝ) :
    common_get_distance lat1 lon1 lat2 lon2 ≤ 10819 := by
  unfold common_get_distance
  set a := Real.sin ((lat2 - lat1) / 2) ^ 2 +
    Real.cos lat1 * Real.cos lat2 * Real.sin ((lon2 - lon1) / 2) ^ 2 with ha
  obtain ⟨h0, h2⟩ := atan2_nonneg_le_pi_div_two (Real.sqrt a)
    (Real.sqrt (1 - a)) (Real.sqrt_nonneg _) (Real.sqrt_nonneg _)
  have hval : (6371000 : ℝ) * (2 * atan2 (Real.sqrt a) (Real.sqrt (1 - a))) /
      1850 ≤ 10819 := by
    have hpi := Real.pi_lt_d6
    nlinarith
  calc pyRound ((6371000 : ℝ) *
        (2 * atan2 (Real.sqrt a) (Real.sqrt (1 - a))) / 1850) ≤
      ⌈(6371000 : ℝ) * (2 * atan2 (Real.sqrt a) (Real.sqrt (1 - a))) / 1850⌉ :=
        pyRound_le_ceil _
    _ ≤ 10819 := Int.ceil_le.2 (by exact_mod_cast hval)

theorem sin_sq_half_sub_comm (x y : ℝ) :
    Real.sin ((x - y) / 2) ^ 2 = Real.sin ((y - x) / 2) ^ 2 := by
  rw [show (x - y) / 2 = -((y - x) / 2) by ring, Real.sin_neg]
  ring

theorem common_get_distance_symm (lat1 lon1 lat2 lon2 : ℝ) :
    common_get_distance lat1 lon1 lat2 lon2 =
      common_get_distance lat2 lon2 lat1 lon1 := by
  simp only [common_get_distance]
  rw [show Real.sin ((lat2 - lat1) / 2) ^ 2 +
      Real.cos lat1 * Real.cos lat2 * Real.sin ((lon2 - lon1) / 2) ^ 2 =
      Real.sin ((lat1 - lat2) / 2) ^ 2 +
      Real.cos lat2 * Real.cos lat1 * Real.sin ((lon1 - lon2) / 2) ^ 2 by
    rw [sin_sq_half_sub_comm lat2 lat1, sin_sq_half_sub_comm lon2 lon1]; ring]

theorem atan2_zero_one : atan2 0 1 = 0 := by
  unfold atan2
  rw [if_pos one_pos, zero_div, Real.arctan_zero]

theorem common_get_distance_self (lat lon : ℝ) :
    common_get_distance lat lon lat lon = 0 := by
  simp only [common_get_distance, sub_self, zero_div, Real.sin_zero]
  norm_num [Real.sqrt_one, atan2_zero_one, pyRound_zero]

theorem get_distance_symm (airports : List Airport) (x y : String) :
    get_distance airports x y = get_distance airports y x := by
  simp only [get_distance]
  cases hx : lookupAirport airports (resolveIdent airports x) <;>
    cases hy : lookupAirport airports (resolveIdent airports y) <;>
    simp [common_get_distance_symm]

theorem get_distance_self_resolved (airports : List Airport) (x : String)
    (a : Airport)
    (h : lookupAirport airports (resolveIdent airports x) = some a) :
    get_distance airports x x = 0 := by
  simp only [get_distance]
  rw [h]
  exact common_get_distance_self _ _

theorem get_distance_self_unresolved (airports : List Airport) (x : String)
    (h : lookupAirport airports (resolveIdent airports x) = none) :
    get_distance airports x x = 99999 := by
  simp only [get_distance]
  rw [h]

/-- The `(i, j)` entry of a matrix stored as a list of rows. -/
def matEntry (m : List (List ℤ)) (i j : ℕ) : Option ℤ :=
  (m.get? i).bind (fun row => row.get? j)

theorem matEntry_distanceMatrix (airports : List Airport)
    (locs : List String) (i j : ℕ) :
    matEntry (distanceMatrix airports locs) i j =
      (locs.get? i).bind
        (fun a => (locs.get? j).map (fun b => get_distance airports a b)) := by
  unfold matEntry distanceMatrix
  rw [List.get?_map]
  cases locs.get? i <;> simp [List.get?_map]

/-! ### Claim C7: unresolved identifiers yield the sentinel -/

/-- C7: whenever either endpoint identifier still matches no airport after
prefix resolution, `get_distance` returns the sentinel 99999 (the function
is total — no exception path exists in this branch). -/
theorem claim_C7_unresolved_sentinel (airports : List Airport)
    (f t : String)
    (h : lookupAirport airports (resolveIdent airports f) = none ∨
      lookupAirport airports (resolveIdent airports t) = none) :
    get_distance airports f t = 99999 := by
  simp only [get_distance]
  rcases h with h | h
  · rw [h]
  · rw [h]
    cases lookupAirport airports (resolveIdent airports f) <;> rfl

/-- Witness for C7: "ZZZZ" resolves to no airport of a one-airport table,
and the distance to the known airport "KAAA" is the sentinel. -/
theorem claim_C7_unresolved_sentinel_witness :
    (lookupAirport [⟨"KAAA", 10, 20⟩]
        (resolveIdent [⟨"KAAA", 10, 20⟩] "ZZZZ") = none ∨
      lookupAirport [⟨"KAAA", 10, 20⟩]
        (resolveIdent [⟨"KAAA", 10, 20⟩] "KAAA") = none) ∧
    get_distance [⟨"KAAA", 10, 20⟩] "ZZZZ" "KAAA" = 99999 :=
  ⟨Or.inl rfl,
   claim_C7_unresolved_sentinel [⟨"KAAA", 10, 20⟩] "ZZZZ" "KAAA" (Or.inl rfl)⟩

/-! ### Claim C8: symmetry and the diagonal of the distance matrix -/

/-- C8 is false as stated: for the single job "ZZZZ" to "YYYY" and an
empty airports table, the matrix diagonal entry of the unresolved node 0
is the sentinel 99999, not 0. -/
theorem claim_C8_counterexample :
    matEntry (distanceMatrix [] (buildLocations [⟨"ZZZZ", "YYYY", 1⟩])) 0 0 =
      some 99999 ∧ (99999 : ℤ) ≠ 0 :=
  ⟨rfl, by decide⟩

/-- C8 amended: the distance matrix is symmetric at every index pair, and
a diagonal entry is 0 when the node's identifier resolves to an airport
but the sentinel 99999 when it does not. -/
theorem claim_C8_amended (airports : List Airport) (locs : List String) :
    (∀ i j : ℕ, matEntry (distanceMatrix airports locs) i j =
        matEntry (distanceMatrix airports locs) j i) ∧
    ∀ (i : ℕ) (icao : String), locs.get? i = some icao →
      ((∃ a, lookupAirport airports (resolveIdent airports icao) = some a) →
        matEntry (distanceMatrix airports locs) i i = some 0) ∧
      (lookupAirport airports (resolveIdent airports icao) = none →
        matEntry (distanceMatrix airports locs) i i = some 99999) := by
  constructor
  · intro i j
    rw [matEntry_distanceMatrix, matEntry_distanceMatrix]
    cases locs.get? i <;> cases locs.get? j <;> simp [get_distance_symm]
  · intro i icao hi
    constructor
    · rintro ⟨a, ha⟩
      rw [matEntry_distanceMatrix, hi]
      simp [get_distance_self_resolved airports icao a ha]
    · intro h
      rw [matEntry_distanceMatrix, hi]
      simp [get_distance_self_unresolved airports icao h]

/-- Witness for C8: a resolved node's diagonal entry is 0, an unresolved
node's diagonal entry is the sentinel. -/
theorem claim_C8_amended_witness :
    matEntry (distanceMatrix [⟨"KAAA", 0, 0⟩] ["KAAA"]) 0 0 = some 0 ∧
    matEntry (distanceMatrix [] ["ZZZZ"]) 0 0 = some 99999 :=
  ⟨((claim_C8_amended [⟨"KAAA", 0, 0⟩] ["KAAA"]).2 0 "KAAA" rfl).1
      ⟨⟨"KAAA", 0, 0⟩, rfl⟩,
   ((claim_C8_amended [] ["ZZZZ"]).2 0 "ZZZZ" rfl).2 rfl⟩

/-! ### Claim C10: resolved distances stay far below the sentinel -/

/-- C10: whenever both identifiers resolve to airports, the computed
distance is at most 10819 nautical miles — half the modelled Earth
circumference, `6371000 * pi / 1850` rounded — and in particular strictly
below the sentinel 99999, so a sentinel entry can never coincide with a
genuinely computed distance. -/
theorem claim_C10_resolved_bounded (airports : List Airport)
    (f t : String) (a b : Airport)
    (hf : lookupAirport airports (resolveIdent airports f) = some a)
    (ht : lookupAirport airports (resolveIdent airports t) = some b) :
    get_distance airports f t ≤ 10819 ∧ get_distance airports f t < 99999 := by
  have hval : get_distance airports f t =
      common_get_distance (radians a.latitude_deg) (radians a.longitude_deg)
        (radians b.latitude_deg) (radians b.longitude_deg) := by
    simp only [get_distance]
    rw [hf, ht]
  rw [hval]
  exact ⟨common_get_distance_le _ _ _ _,
    lt_of_le_of_lt (common_get_distance_le _ _ _ _) (by norm_num)⟩

/-- Witness for C10: both endpoints resolve in a one-airport table. -/
theorem claim_C10_resolved_bounded_witness :
    get_distance [⟨"KAAA", 10, 20⟩] "KAAA" "KAAA" ≤ 10819 ∧
    get_distance [⟨"KAAA", 10, 20⟩] "KAAA" "KAAA" < 99999 :=
  claim_C10_resolved_bounded [⟨"KAAA", 10, 20⟩] "KAAA" "KAAA"
    ⟨"KAAA", 10, 20⟩ ⟨"KAAA", 10, 20⟩ rfl rfl

/-! ### Claim C6: the unit conversion of the distance function -/

/-- The great-circle distance in metres computed inside
`common.get_distance` before any unit conversion: Earth radius 6371000
metres times the haversine central angle. -/
noncomputable def haversineMeters (lat1 lon1 lat2 lon2 : ℝ) : ℝ :=
  let dlon := lon2 - lon1
  let dlat := lat2 - lat1
  let a := Real.sin (dlat / 2) ^ 2 +
    Real.cos lat1 * Real.cos lat2 * Real.sin (dlon / 2) ^ 2
  6371000 * (2 * atan2 (Real.sqrt a) (Real.sqrt (1 - a)))

/-- The code's distance is the metre value divided by the literal 1850 and
rounded — 1850 is the code's divisor, not the 1852-metre definition of the
nautical mile. -/
theorem common_get_distance_eq_haversine (lat1 lon1 lat2 lon2 : ℝ) :
    common_get_distance lat1 lon1 lat2 lon2 =
      pyRound (haversineMeters lat1 lon1 lat2 lon2 / 1850) :=
  rfl

/-- For two antipodal equator points the haversine central angle is
exactly `pi`, so the metre value is `6371000 * pi`. -/
theorem haversineMeters_antipodal :
    haversineMeters 0 0 0 Real.pi = 6371000 * Real.pi := by
  simp only [haversineMeters]
  rw [show ((0 : ℝ) - 0) / 2 = 0 by ring,
    show (Real.pi - 0) / 2 = Real.pi / 2 by ring,
    Real.sin_zero, Real.sin_pi_div_two, Real.cos_zero]
  rw [show (0 : ℝ) ^ 2 + 1 * 1 * (1 : ℝ) ^ 2 = 1 by norm_num]
  rw [show (1 : ℝ) - 1 = 0 by norm_num, Real.sqrt_one, Real.sqrt_zero]
  have h : atan2 1 0 = Real.pi / 2 := by
    unfold atan2
    rw [if_neg (lt_irrefl 0), if_neg (lt_irrefl 0), if_pos one_pos]
  rw [h]
  ring

/-- One degree of latitude from the equator, same longitude: the haversine
collapses to a central angle of exactly `pi / 180`, and
`round(6371000 * (pi / 180) / 1850)` is 60 nautical miles. -/
theorem common_get_distance_one_degree :
    common_get_distance 0 0 (Real.pi / 180) 0 = 60 := by
  have hu0 : 0 < Real.pi / 360 := by positivity
  have hupi2 : Real.pi / 360 < Real.pi / 2 := by
    have := Real.pi_pos
    linarith
  have hsin0 : (0 : ℝ) ≤ Real.sin (Real.pi / 360) :=
    Real.sin_nonneg_of_nonneg_of_le_pi hu0.le (by linarith [Real.pi_pos])
  have hcos : 0 < Real.cos (Real.pi / 360) :=
    Real.cos_pos_of_mem_Ioo ⟨by linarith [Real.pi_pos], hupi2⟩
  simp only [common_get_distance]
  rw [show (Real.pi / 180 - 0) / 2 = Real.pi / 360 by ring,
    show ((0 : ℝ) - 0) / 2 = 0 by ring, Real.sin_zero,
    show Real.sin (Real.pi / 360) ^ 2 +
        Real.cos 0 * Real.cos (Real.pi / 180) * (0 : ℝ) ^ 2 =
      Real.sin (Real.pi / 360) ^ 2 by ring,
    Real.sqrt_sq hsin0, ← Real.cos_sq' (Real.pi / 360),
    Real.sqrt_sq hcos.le]
  unfold atan2
  rw [if_pos hcos, ← Real.tan_eq_sin_div_cos,
    Real.arctan_tan (by linarith) hupi2,
    show (6371000 : ℝ) * (2 * (Real.pi / 360)) / 1850 =
      6371000 * Real.pi / 333000 by ring]
  apply pyRound_eq
  · push_cast
    linarith [Real.pi_gt_d2]
  · push_cast
    linarith [Real.pi_lt_d2]

/-- The three-airport table of the spec's Scenario A: two airports one
degree of latitude apart at the equator, plus a third known airport. -/
def c6airports : List Airport :=
  [⟨"AAAA", 0, 0⟩, ⟨"BBBB", 1, 0⟩, ⟨"CCCC", 0, 2⟩]

/-- On Scenario A's airports, `get_distance` returns exactly 60 for the
two equator airports one degree of latitude apart. -/
theorem get_distance_equator_60 :
    get_distance c6airports "AAAA" "BBBB" = 60 := by
  have h1 : get_distance c6airports "AAAA" "BBBB" =
      common_get_distance (radians 0) (radians 0) (radians 1) (radians 0) :=
    rfl
  have hr0 : radians 0 = 0 := by
    rw [radians, zero_mul, zero_div]
  have hr1 : radians 1 = Real.pi / 180 := by
    rw [radians, one_mul]
  rw [h1, hr0, hr1, common_get_distance_one_degree]

/-- C6 is false as stated: for the resolved antipodal pair (0°, 0°) and
(0°, 180°), the code returns `round(6371000 * pi / 1850) = 10819`, while
converting the haversine metre value to nautical miles (1852 metres per
nautical mile) and rounding gives 10807 — a 12-mile gap, far outside ±1,
so the function does not convert metres to nautical miles. -/
theorem claim_C6_counterexample :
    get_distance [⟨"AAAA", 0, 0⟩, ⟨"BBBB", 0, 180⟩] "AAAA" "BBBB" = 10819 ∧
    pyRound (haversineMeters (radians 0) (radians 0) (radians 0)
        (radians 180) / 1852) = 10807 ∧
    ¬(|(10819 : ℤ) - 10807| ≤ 1) := by
  have hrad0 : radians 0 = 0 := by
    rw [radians, zero_mul, zero_div]
  have hrad180 : radians 180 = Real.pi := by
    rw [radians]
    ring
  refine ⟨?_, ?_, by decide⟩
  · have h1 : get_distance [⟨"AAAA", 0, 0⟩, ⟨"BBBB", 0, 180⟩] "AAAA" "BBBB" =
        common_get_distance (radians 0) (radians 0) (radians 0)
          (radians 180) := rfl
    rw [h1, hrad0, hrad180, common_get_distance_eq_haversine,
      haversineMeters_antipodal]
    apply pyRound_eq
    · push_cast
      linarith [Real.pi_gt_d4]
    · push_cast
      linarith [Real.pi_lt_d4]
  · rw [hrad0, hrad180, haversineMeters_antipodal]
    apply pyRound_eq
    · push_cast
      linarith [Real.pi_gt_d4]
    · push_cast
      linarith [Real.pi_lt_d4]

/-- C6 amended: for every pair of identifiers that both resolve, the
distance function computes the great-circle haversine distance in metres
and divides it by the literal 1850 — an approximation of the 1852-metre
nautical mile, not the exact conversion — rounding to the nearest
integer; on the spec's equator scenario this still returns exactly the
precomputed value 60, within the claimed ±1. -/
theorem claim_C6_amended (airports : List Airport) (f t : String)
    (a b : Airport)
    (hf : lookupAirport airports (resolveIdent airports f) = some a)
    (ht : lookupAirport airports (resolveIdent airports t) = some b) :
    get_distance airports f t =
      pyRound (haversineMeters (radians a.latitude_deg)
          (radians a.longitude_deg) (radians b.latitude_deg)
          (radians b.longitude_deg) / 1850) ∧
    get_distance c6airports "AAAA" "BBBB" = 60 ∧
    |get_distance c6airports "AAAA" "BBBB" - 60| ≤ 1 := by
  refine ⟨?_, get_distance_equator_60, ?_⟩
  · simp only [get_distance]
    rw [hf, ht]
    exact common_get_distance_eq_haversine _ _ _ _
  · rw [get_distance_equator_60]
    decide

/-- Witness for C6: both scenario identifiers resolve in the Scenario A
airport table, and the code value there is the 1850-divisor rounding. -/
theorem claim_C6_amended_witness :
    (get_distance c6airports "AAAA" "BBBB" =
      pyRound (haversineMeters (radians 0) (radians 0) (radians 1)
          (radians 0) / 1850)) ∧
    get_distance c6airports "AAAA" "BBBB" = 60 :=
  have h := claim_C6_amended c6airports "AAAA" "BBBB"
    ⟨"AAAA", 0, 0⟩ ⟨"BBBB", 1, 0⟩ rfl rfl
  ⟨h.1, h.2.1⟩

/-! ### Claim C1: the per-arc demand lookup -/

/-- A jobs list on which exactly one job matches the arc from node 0 to
node 1: the single job from "AAAA" to "BBBB" with quantity 10. -/
def c1jobs : List Job := [⟨"AAAA", "BBBB", 10⟩]

/-- C1: with exactly one job matching the arc ("AAAA", "BBBB"), the demand
callback evaluates `df['quantity'].iloc[1]` on a one-row frame and raises
(`none` in this embedding) instead of returning the matching job's
quantity; the same-node branch does return 0 as claimed. -/
theorem claim_C1_single_match_raises :
    demand_callback c1jobs ["AAAA", "BBBB"] 0 1 = none ∧
    demand_callback c1jobs ["AAAA", "BBBB"] 1 1 = some 0 := by
  constructor <;> rfl

/-! ### Claim C3: capacity and range bounds are hardcoded -/

/-- An aircraft record whose cargo capacity (1200) and range (900) differ
from the literals 500 and 70000 used by `calculate_jobs`. -/
def c3aircraft : Aircraft := ⟨"EGLL", "C208", 1200, 900⟩

/-- C3 is false as stated: for the aircraft record `c3aircraft`, the
capacity list and maximum travel distance handed to the solver are the
fixed literals `[500]` and `70000`, not the record's `cargo_capacity`
(1200) and `range` (900). -/
theorem claim_C3_counterexample :
    solveCapacities c3aircraft ≠ [c3aircraft.cargoCapacity] ∧
    solveMaxTravelDistance c3aircraft ≠ c3aircraft.range := by
  constructor <;> decide

/-- C3 amended: the bounds enforced by the solve are the fixed constants
500 (cargo) and 70000 (distance) for every aircraft record; any route
feasible for the configured dimensions keeps every cumulative load in
[0, 500] and every cumulative distance in [0, 70000]. -/
theorem claim_C3_amended (ac : Aircraft) (transit demand : ℕ → ℕ → ℤ)
    (route : List ℕ)
    (hdist : DimensionFeasible transit (solveMaxTravelDistance ac) route)
    (hcap : DimensionFeasible demand ((solveCapacities ac).getD 0 0) route) :
    (∀ c ∈ routeCumuls demand route, 0 ≤ c ∧ c ≤ 500) ∧
    (∀ c ∈ routeCumuls transit route, 0 ≤ c ∧ c ≤ 70000) ∧
    solveCapacities ac = [500] ∧ solveMaxTravelDistance ac = 70000 :=
  ⟨fun c hc => hcap c hc, fun c hc => hdist c hc, rfl, rfl⟩

/-- Witness for C3: a concrete aircraft, transit function and route
satisfying both dimension hypotheses. -/
theorem claim_C3_amended_witness :
    (∀ c ∈ routeCumuls (fun _ _ => (7 : ℤ)) [0, 1, 0], 0 ≤ c ∧ c ≤ 500) ∧
    (∀ c ∈ routeCumuls (fun _ _ => (7 : ℤ)) [0, 1, 0], 0 ≤ c ∧ c ≤ 70000) ∧
    solveCapacities c3aircraft = [500] ∧
    solveMaxTravelDistance c3aircraft = 70000 :=
  claim_C3_amended c3aircraft (fun _ _ => 7) (fun _ _ => 7) [0, 1, 0]
    (by unfold DimensionFeasible; decide) (by unfold DimensionFeasible; decide)

/-! ### Claim C4: the solution extractor always raises `KeyError` -/

/-- A jobs list producing a solvable one-job instance based at "AAAA". -/
def c4jobs : List Job := [⟨"AAAA", "BBBB", 5⟩]

/-- The data model `create_data_model` builds for `c4jobs` with no airport
table: locations are ["BBBB", "AAAA"], every distance is the sentinel, the
base index is 1, and no `'demands'` key is ever assigned. -/
def c4data : DataModel := ⟨[], [[99999, 99999], [99999, 99999]], 1, 1, none⟩

/-- C4 fails on the code: `create_data_model` never assigns the
`'demands'` key, so `print_solution` raises `KeyError` at the very first
stop of the route [1, 0, 1] instead of producing per-stop loads and fleet
totals. -/
theorem claim_C4_extractor_keyerror :
    create_data_model [] c4jobs "AAAA" = Except.ok c4data ∧
    print_solution c4data [[1, 0, 1]] = Except.error "KeyError: demands" := by
  constructor <;> rfl

/-! ### Location-list lemmas for claims C2 and C9 -/

theorem mem_addLocation {l : List String} {x y : String} :
    x ∈ addLocation l y ↔ x ∈ l ∨ x = y := by
  unfold addLocation
  by_cases h : y ∈ l
  · simp only [if_pos h]
    exact ⟨fun hx => Or.inl hx, fun hx => hx.elim id (fun e => e ▸ h)⟩
  · simp [if_neg h]

theorem self_mem_addLocation (l : List String) (y : String) :
    y ∈ addLocation l y :=
  mem_addLocation.2 (Or.inr rfl)

theorem mem_addLocation_of_mem {l : List String} {x : String} (y : String)
    (h : x ∈ l) : x ∈ addLocation l y :=
  mem_addLocation.2 (Or.inl h)

theorem addLocation_eq_append (l : List String) (y : String) :
    ∃ t, addLocation l y = l ++ t := by
  unfold addLocation
  by_cases h : y ∈ l
  · exact ⟨[], by simp [if_pos h]⟩
  · exact ⟨[y], by simp [if_neg h]⟩

theorem locStep_eq_append (l : List String) (j : Job) :
    ∃ t, locStep l j = l ++ t := by
  obtain ⟨t1, h1⟩ := addLocation_eq_append l j.toIcao
  obtain ⟨t2, h2⟩ := addLocation_eq_append (addLocation l j.toIcao) j.fromIcao
  exact ⟨t1 ++ t2, by rw [locStep, h2, h1, List.append_assoc]⟩

theorem foldl_locStep_eq_append (jobs : List Job) :
    ∀ l : List String, ∃ t, jobs.foldl locStep l = l ++ t := by
  induction jobs with
  | nil => exact fun l => ⟨[], by simp⟩
  | cons j rest ih =>
    intro l
    obtain ⟨t1, h1⟩ := locStep_eq_append l j
    obtain ⟨t2, h2⟩ := ih (locStep l j)
    exact ⟨t1 ++ t2, by rw [List.foldl_cons, h2, h1, List.append_assoc]⟩

theorem mem_foldl_locStep (jobs : List Job) :
    ∀ (l : List String) (x : String),
      x ∈ jobs.foldl locStep l ↔
        x ∈ l ∨ ∃ j ∈ jobs, j.fromIcao = x ∨ j.toIcao = x := by
  induction jobs with
  | nil => simp
  | cons j rest ih =>
    intro l x
    rw [List.foldl_cons, ih]
    simp only [locStep, mem_addLocation, List.mem_cons]
    constructor
    · rintro (((hx | rfl) | rfl) | ⟨j', hj', h⟩)
      · exact Or.inl hx
      · exact Or.inr ⟨j, Or.inl rfl, Or.inr rfl⟩
      · exact Or.inr ⟨j, Or.inl rfl, Or.inl rfl⟩
      · exact Or.inr ⟨j', Or.inr hj', h⟩
    · rintro (hx | ⟨j', (rfl | hj'), h⟩)
      · exact Or.inl (Or.inl (Or.inl hx))
      · rcases h with h | h
        · exact Or.inl (Or.inr h.symm)
        · exact Or.inl (Or.inl (Or.inr h.symm))
      · exact Or.inr ⟨j', hj', h⟩

theorem mem_buildLocations {jobs : List Job} {x : String} :
    x ∈ buildLocations jobs ↔
      ∃ j ∈ jobs, j.fromIcao = x ∨ j.toIcao = x := by
  rw [buildLocations, mem_foldl_locStep]
  simp

theorem fromIcao_mem_buildLocations {jobs : List Job} {j : Job}
    (hj : j ∈ jobs) : j.fromIcao ∈ buildLocations jobs :=
  mem_buildLocations.2 ⟨j, hj, Or.inl rfl⟩

theorem toIcao_mem_buildLocations {jobs : List Job} {j : Job}
    (hj : j ∈ jobs) : j.toIcao ∈ buildLocations jobs :=
  mem_buildLocations.2 ⟨j, hj, Or.inr rfl⟩

theorem foldl_cdmStep_fst (base : String) (jobs : List Job) :
    ∀ st : List String × List (ℕ × ℕ),
      (jobs.foldl (cdmStep base) st).1 = jobs.foldl locStep st.1 := by
  induction jobs with
  | nil => intro st; rfl
  | cons j rest ih =>
    intro st
    rw [List.foldl_cons, List.foldl_cons, ih]
    rfl

theorem buildState_fst (jobs : List Job) (base : String) :
    (buildState jobs base).1 = buildLocations jobs := by
  rw [buildState, buildLocations, foldl_cdmStep_fst]

theorem foldl_cdmStep_snd (base : String) (jobs : List Job) :
    ∀ (locs : List String) (ps : List (ℕ × ℕ)),
      (jobs.foldl (cdmStep base) (locs, ps)).2 =
        ps ++ (jobs.foldl (cdmStep base) (locs, [])).2 := by
  induction jobs with
  | nil => simp
  | cons j rest ih =>
    intro locs ps
    rw [List.foldl_cons, List.foldl_cons]
    have hstep : ∀ qs : List (ℕ × ℕ),
        cdmStep base (locs, qs) j =
          (locStep locs j, qs ++ (cdmStep base (locs, []) j).2) := by
      intro qs
      unfold cdmStep
      by_cases h : j.fromIcao ≠ base ∧ j.toIcao ≠ base <;> simp [h]
    rw [hstep ps, ih, hstep []]
    rw [List.nil_append, ih (locStep locs j) ((cdmStep base (locs, []) j).2),
      List.append_assoc]

theorem buildState_snd_eq (base : String) (jobs : List Job) :
    ∀ locs : List String,
      (jobs.foldl (cdmStep base) (locs, [])).2 =
        (jobs.filter
            (fun j => decide (j.fromIcao ≠ base ∧ j.toIcao ≠ base))).map
          (fun j => (List.indexOf j.fromIcao (jobs.foldl locStep locs),
                     List.indexOf j.toIcao (jobs.foldl locStep locs))) := by
  induction jobs with
  | nil => intro locs; rfl
  | cons j rest ih =>
    intro locs
    rw [List.foldl_cons]
    by_cases h : j.fromIcao ≠ base ∧ j.toIcao ≠ base
    · have hstep : cdmStep base (locs, []) j =
          (locStep locs j,
            [(List.indexOf j.fromIcao (locStep locs j),
              List.indexOf j.toIcao (locStep locs j))]) := by
        unfold cdmStep; simp [h]
      rw [hstep, foldl_cdmStep_snd, ih (locStep locs j),
        List.filter_cons_of_pos (by simpa using h), List.map_cons]
      obtain ⟨t, ht⟩ := foldl_locStep_eq_append rest (locStep locs j)
      have hf : j.fromIcao ∈ locStep locs j :=
        self_mem_addLocation _ j.fromIcao
      have hto : j.toIcao ∈ locStep locs j :=
        mem_addLocation_of_mem j.fromIcao (self_mem_addLocation locs j.toIcao)
      simp only [List.foldl_cons]
      rw [ht, List.indexOf_append_of_mem hf, List.indexOf_append_of_mem hto]
      rfl
    · have hstep : cdmStep base (locs, []) j = (locStep locs j, []) := by
        unfold cdmStep; simp [h]
      rw [hstep, ih (locStep locs j),
        List.filter_cons_of_neg (by simpa using h)]
      simp only [List.foldl_cons]

theorem buildPairs_eq (jobs : List Job) (base : String) :
    buildPairs jobs base =
      (jobs.filter
          (fun j => decide (j.fromIcao ≠ base ∧ j.toIcao ≠ base))).map
        (fun j => (List.indexOf j.fromIcao (buildLocations jobs),
                   List.indexOf j.toIcao (buildLocations jobs))) := by
  rw [buildPairs, buildState, buildState_snd_eq, buildLocations]

/-! ### Claim C2: placement of the home base in the node list -/

/-- Jobs list whose single job departs the home base "HHHH". -/
def c2jobsA : List Job := [⟨"HHHH", "BBBB", 5⟩]

/-- Jobs list that never mentions the home base "HHHH". -/
def c2jobsB : List Job := [⟨"AAAA", "BBBB", 5⟩]

/-- C2 is false as stated: for `c2jobsA` with home base "HHHH" the base is
assigned node index 1 and the first node is the job's destination "BBBB",
not the home base; and for `c2jobsB` the home base is absent from the node
list altogether and `create_data_model` fails with a `ValueError`. -/
theorem claim_C2_counterexample :
    ((create_data_model [] c2jobsA "HHHH").toOption.map DataModel.base =
        some 1 ∧
      (buildLocations c2jobsA).get? 0 = some "BBBB") ∧
    ("HHHH" ∉ buildLocations c2jobsB ∧
      create_data_model [] c2jobsB "HHHH" =
        Except.error "ValueError: aircraft location is not in list") :=
  ⟨⟨rfl, rfl⟩, ⟨by decide, rfl⟩⟩

/-- C2 amended: the node list contains the home base exactly when some
job's origin or destination equals it (the list is built from the jobs
alone, in destination-before-origin order, with no node 0 seeded), and
whenever `create_data_model` succeeds, its base index points at the home
base's actual position in the node list — which need not be 0. -/
theorem claim_C2_amended (airports : List Airport) (jobs : List Job)
    (icao : String) :
    (icao ∈ buildLocations jobs ↔
      ∃ j ∈ jobs, j.fromIcao = icao ∨ j.toIcao = icao) ∧
    ∀ d : DataModel, create_data_model airports jobs icao = Except.ok d →
      (buildLocations jobs).get? d.base = some icao := by
  refine ⟨mem_buildLocations, ?_⟩
  intro d hd
  unfold create_data_model at hd
  by_cases h : icao ∈ (buildState jobs icao).1
  · rw [if_pos h] at hd
    cases hd
    rw [buildState_fst] at h ⊢
    exact List.indexOf_get? h
  · rw [if_neg h] at hd
    exact absurd hd (by simp)

/-- Witness for C2: on the concrete instance `c2jobsA` with home base
"HHHH", `create_data_model` succeeds and the base index (1) points at
"HHHH" in the node list. -/
theorem claim_C2_amended_witness :
    ("HHHH" ∈ buildLocations c2jobsA ↔
      ∃ j ∈ c2jobsA, j.fromIcao = "HHHH" ∨ j.toIcao = "HHHH") ∧
    (buildLocations c2jobsA).get? (1 : ℕ) = some "HHHH" :=
  ⟨(claim_C2_amended [] c2jobsA "HHHH").1,
   (claim_C2_amended [] c2jobsA "HHHH").2
     ⟨[], [[99999, 99999], [99999, 99999]], 1, 1, none⟩ rfl⟩

/-! ### Claim C9: which jobs get an explicit pickup-delivery pair -/

/-- C9: a job's pickup-delivery pair — its endpoints' node indices — is in
the recorded pair list exactly when both its origin and its destination
differ from the aircraft's home identifier. -/
theorem claim_C9_pair_iff (jobs : List Job) (base : String) (j : Job)
    (hj : j ∈ jobs) :
    ((List.indexOf j.fromIcao (buildLocations jobs),
      List.indexOf j.toIcao (buildLocations jobs)) ∈ buildPairs jobs base) ↔
      (j.fromIcao ≠ base ∧ j.toIcao ≠ base) := by
  rw [buildPairs_eq]
  constructor
  · intro hmem
    obtain ⟨j', hj', heq⟩ := List.mem_map.1 hmem
    rw [List.mem_filter] at hj'
    have hp' : j'.fromIcao ≠ base ∧ j'.toIcao ≠ base := by
      simpa using hj'.2
    have e1 : j'.fromIcao = j.fromIcao :=
      (List.indexOf_inj (fromIcao_mem_buildLocations hj'.1)
        (fromIcao_mem_buildLocations hj)).1 (congrArg Prod.fst heq)
    have e2 : j'.toIcao = j.toIcao :=
      (List.indexOf_inj (toIcao_mem_buildLocations hj'.1)
        (toIcao_mem_buildLocations hj)).1 (congrArg Prod.snd heq)
    exact ⟨e1 ▸ hp'.1, e2 ▸ hp'.2⟩
  · intro hp
    exact List.mem_map.2 ⟨j, List.mem_filter.2 ⟨hj, by simpa using hp⟩, rfl⟩

/-- Witness for C9: on a concrete two-sided instance, the job avoiding the
home base has its pair recorded, and the job touching the home base has
not. -/
theorem claim_C9_pair_iff_witness :
    (((List.indexOf "AAAA" (buildLocations [⟨"AAAA", "BBBB", 1⟩]),
       List.indexOf "BBBB" (buildLocations [⟨"AAAA", "BBBB", 1⟩])) ∈
        buildPairs [⟨"AAAA", "BBBB", 1⟩] "HHHH") ↔
      (("AAAA" : String) ≠ "HHHH" ∧ ("BBBB" : String) ≠ "HHHH")) :=
  claim_C9_pair_iff [⟨"AAAA", "BBBB", 1⟩] "HHHH" ⟨"AAAA", "BBBB", 1⟩
    (by simp)

/-! ### Claim C5: infeasibility surfaces as an explicit variant -/

/-- C5: when the solver reports no feasible assignment (a null result,
per the spec's contract for the external engine), `calculate_jobs` falls
through its `if solution:` guard: the outcome is the explicit `none`
variant, no exception and no partially-printed route. -/
theorem claim_C5_no_solution_variant
    (solver : DataModel → Option (List (List ℕ))) (data : DataModel)
    (h : solver data = none) :
    calculate_jobs_report data (solver data) = Except.ok none := by
  rw [h]; rfl

/-- Witness for C5: a solver that returns no assignment on a concrete
data model. -/
theorem claim_C5_no_solution_variant_witness :
    calculate_jobs_report ⟨[], [], 1, 0, none⟩
      ((fun _ => none : DataModel → Option (List (List ℕ)))
        ⟨[], [], 1, 0, none⟩) = Except.ok none :=
  claim_C5_no_solution_variant (fun _ => none) ⟨[], [], 1, 0, none⟩ rfl

end AirHauler
